import Mathlib

/-!
# Verification of the emission-server Project Stage Progression Engine

A shallow embedding of the stateful core of `src/server.js`: the MySQL
tables it mutates are modelled as Lean lists of rows, each request
handler as a function from a database state to a database state plus an
outcome.  Nullable SQL columns are `Option`s, SQL string enums are
`String`s compared with the very literals the source uses, monetary /
emission numbers are rationals, and dates are abstract day counters.
Every `queryDatabase` call is driven by an explicit fate oracle with
three outcomes mirroring server.js:71-96: success, an ordinary error
reported to the callback (the handlers then roll back), and a
connection-class error, on which the wrapper silently reconnects and
re-executes the query on a fresh connection - outside the transaction
the old connection carried, so earlier uncommitted writes are lost and
later statements autocommit.
-/

namespace EmissionServer

/-- One row of the `project_members` table.  Columns `current_stage` and
`progress_status` are nullable and default to SQL `NULL` when an INSERT
omits them. -/
structure MemberRow where
  project_id : Nat
  user_id : Nat
  role : String
  current_stage : Option String := none
  progress_status : Option String := none
  deriving Repr, DecidableEq

/-- One row of the `user_history` table (a project stage instance). -/
structure HistoryRow where
  id : Nat
  user_id : Nat
  organization : Option String := none
  project_name : String
  project_description : String
  stage : String
  project_id : Option Nat := none
  status : String
  carbon_emit : Rat := 0
  session_duration : Rat := 0
  stage_duration : Option Nat := none
  stage_start_date : Nat := 0
  stage_due_date : Nat := 0
  project_start_date : Nat := 0
  project_due_date : Nat := 0
  deriving Repr, DecidableEq

/-- One row of the `project_stage_progress` audit table; the table has a
unique key on (project_id, user_id, stage) - the source upserts with
`ON DUPLICATE KEY UPDATE`. -/
structure ProgressRow where
  project_id : Nat
  user_id : Nat
  stage : String
  status : String
  start_date : Nat
  completion_date : Option Nat := none
  deriving Repr, DecidableEq

/-- One row of the `notifications` table. -/
structure NotifRow where
  id : Nat
  sender_id : Nat
  recipient_id : Nat
  project_id : Nat
  ntype : String
  message : String
  status : String := "unread"
  response : Option String := none
  deriving Repr, DecidableEq

/-- One row of the `project_requests` table. -/
structure RequestRow where
  id : Nat
  user_id : Nat
  title : String
  description : String
  project_stage : String
  organization : Option String := none
  stage_duration : Option Nat := none
  stage_start_date : Nat := 0
  stage_due_date : Nat := 0
  project_start_date : Nat := 0
  project_due_date : Nat := 0
  status : String
  reviewer_id : Option Nat := none
  review_notes : Option String := none
  deriving Repr, DecidableEq

/-- The mutable store: the five tables the progression engine touches,
plus the AUTO_INCREMENT counter for `user_history.id`. -/
structure DB where
  history : List HistoryRow := []
  members : List MemberRow := []
  progress : List ProgressRow := []
  notifications : List NotifRow := []
  requests : List RequestRow := []
  nextId : Nat := 1
  deriving Repr, DecidableEq

/-! ## The `queryDatabase` / transaction model (server.js:71-119) -/

/-- What happens to one `queryDatabase` call. -/
inductive QueryFate where
  /-- The query succeeds on the live connection. -/
  | ok
  /-- A non-connection error reaches the callback; the handler's error
  branch runs (typically `connection.rollback` and a 500). -/
  | err
  /-- A connection-class error (PROTOCOL_CONNECTION_LOST, ECONNRESET,
  ETIMEDOUT): the wrapper reconnects and re-executes the query on the
  fresh connection (server.js:84-92), discarding the old connection's
  open transaction. -/
  | lost
  deriving Repr, DecidableEq

/-- The store `connection.rollback` leaves behind: the pre-transaction
snapshot while the transaction is alive; once the connection was
replaced, rollback is a no-op and whatever already autocommitted
stays. -/
def rollbackState (inTxn : Bool) (snapshot cur : DB) : DB :=
  if inTxn then snapshot else cur

/-- The store a query actually runs against: after a reconnect the
fresh connection sees only committed data - the old transaction's
pending writes are gone. -/
def queryBase (fate : QueryFate) (inTxn : Bool) (snapshot cur : DB) : DB :=
  match fate with
  | .lost => if inTxn then snapshot else cur
  | _ => cur

/-- Whether a transaction is still open after the query. -/
def queryTxn (fate : QueryFate) (inTxn : Bool) : Bool :=
  match fate with
  | .lost => false
  | _ => inTxn

/-- One `queryDatabase` call whose effect on the store is `w` (the
identity for a SELECT): `none` when the callback receives an error,
otherwise the store after the query together with the transaction
flag. -/
def runQuery (fate : QueryFate) (inTxn : Bool) (snapshot cur : DB) (w : DB → DB) :
    Option (DB × Bool) :=
  match fate with
  | .err => none
  | _ => some (w (queryBase fate inTxn snapshot cur), queryTxn fate inTxn)

/-- The final `connection.commit`: on success the current store is
committed; an error takes the rollback path; a connection loss
re-executes COMMIT on the fresh connection - a no-op that still reports
success even though the old transaction's pending writes are gone. -/
def commitQuery {α : Type} (fate : QueryFate) (inTxn : Bool) (snapshot cur : DB)
    (out : α) : DB × Option α :=
  match fate with
  | .ok => (cur, some out)
  | .err => (rollbackState inTxn snapshot cur, none)
  | .lost => (rollbackState inTxn snapshot cur, some out)

/-! ## Completion Evaluator (`checkAndUpdateProjectCompletion`) -/

/-- The rows returned by
`SELECT ... FROM project_members WHERE project_id = ? AND role != 'project_owner'`. -/
def contributingMembers (db : DB) (projectId : Nat) : List MemberRow :=
  db.members.filter fun m => m.project_id == projectId && m.role != "project_owner"

/-- The write `UPDATE user_history SET status = 'Complete' WHERE id = ?`. -/
def markProjectComplete (db : DB) (projectId : Nat) : DB :=
  { db with history := db.history.map fun r =>
      if r.id == projectId then { r with status := "Complete" } else r }

/-- The body of `checkAndUpdateProjectCompletion`: the member SELECT
and the conditional status UPDATE, each a `queryDatabase` call with its
own fate.  Returns the store and transaction flag after the calls, and
`some allCompleted` - or `none` when a callback received an error. -/
def checkCompletionFates (fSel fUpd : QueryFate) (inTxn : Bool) (snapshot cur : DB)
    (projectId : Nat) : (DB × Bool) × Option Bool :=
  match runQuery fSel inTxn snapshot cur id with
  | none => ((cur, inTxn), none)
  | some (s, t) =>
    let members := contributingMembers s projectId
    if members.length == 0 then ((s, t), some false)
    else
      let allCompleted := members.all fun m => m.progress_status == some "Stage Complete"
      if allCompleted then
        match runQuery fUpd t snapshot s (fun x => markProjectComplete x projectId) with
        | none => ((s, t), none)
        | some (s2, t2) => ((s2, t2), some true)
      else ((s, t), some false)

/-- `checkAndUpdateProjectCompletion` on a healthy connection: returns
the updated store and the `allCompleted` flag passed to the callback. -/
def checkAndUpdateProjectCompletion (db : DB) (projectId : Nat) : DB × Bool :=
  let r := checkCompletionFates .ok .ok true db db projectId
  (r.1.1, r.2.getD false)

/-! ## Emission Accrual (`/calculate_emissions`, `/calculate_emissionsM`) -/

/-- Region-to-carbon-factor lookup (`getCarbonFactor`); the JS object
lookup followed by `|| 0.412` falls back to Singapore's factor for a
missing or unrecognized region. -/
def getCarbonFactor (region : Option String) : Rat :=
  if region == some "Singapore" then 412/1000
  else if region == some "Philippines" then 5246/10000
  else 412/1000

/-- The resolved average wattages of the caller's current device: CPU,
GPU and RAM come from the wattage lookup tables; `psu` is the numeric
`psu` column of `user_devices`. -/
structure DeviceWatts where
  cpu : Rat
  gpu : Rat
  ram : Rat
  psu : Rat
  deriving Repr, DecidableEq

/-- The carbon delta the desktop endpoint `/calculate_emissions`
computes: total wattage sums CPU, GPU, RAM and PSU, energy is
`(totalWattUsage / 3600) * sessionDurationSeconds`, and the delta is
energy times the regional factor. -/
def calculate_emissions (d : DeviceWatts) (sessionDuration : Rat)
    (region : Option String) : Rat :=
  let totalWattUsage := d.cpu + d.gpu + d.ram + d.psu
  let totalEnergyUsed := (totalWattUsage / 3600) * sessionDuration
  totalEnergyUsed * getCarbonFactor region

/-- The carbon delta the mobile/laptop endpoint `/calculate_emissionsM`
computes: `totalWattage = cpuWattage + gpuWattage + ramWattage` (the
fetched `psu` column is never used there), and the delta is
`((totalWattage * sessionDuration) / 3600) * carbonFactor`. -/
def calculate_emissionsM (d : DeviceWatts) (sessionDuration : Rat)
    (region : Option String) : Rat :=
  let totalWattage := d.cpu + d.gpu + d.ram
  ((totalWattage * sessionDuration) / 3600) * getCarbonFactor region

/-- The row condition of the desktop update
`WHERE id = ? AND (user_id = ? OR id IN (SELECT project_id FROM project_members WHERE user_id = ?))`. -/
def desktopAccrueCond (db : DB) (userId : Nat) (projectId : Nat) (r : HistoryRow) : Bool :=
  r.id == projectId &&
    (r.user_id == userId || db.members.any fun m => m.user_id == userId && m.project_id == r.id)

/-- The per-row effect of the desktop update: a relative increment of
the matching row's `carbon_emit`. -/
def desktopStep (db : DB) (projectId userId : Nat) (delta : Rat) (r : HistoryRow) :
    HistoryRow :=
  if desktopAccrueCond db userId projectId r then
    { r with carbon_emit := r.carbon_emit + delta }
  else r

/-- The desktop update `UPDATE user_history SET carbon_emit = carbon_emit + ? WHERE ...`
applied to the whole table. -/
def applyDesktopAccrual (db : DB) (projectId userId : Nat) (delta : Rat) : DB :=
  { db with history := db.history.map (desktopStep db projectId userId delta) }

/-- The per-row effect of the mobile update
`SET session_duration = session_duration + ?, carbon_emit = carbon_emit + ? WHERE id = ? AND user_id = ?`. -/
def mobileStep (projectId userId : Nat) (dur delta : Rat) (r : HistoryRow) : HistoryRow :=
  if r.id == projectId && r.user_id == userId then
    { r with session_duration := r.session_duration + dur,
             carbon_emit := r.carbon_emit + delta }
  else r

/-- The mobile update applied to the whole table. -/
def applyMobileAccrual (db : DB) (projectId userId : Nat) (dur delta : Rat) : DB :=
  { db with history := db.history.map (mobileStep projectId userId dur delta) }

/-! ## Invitation response (`PUT /invitations/:id/respond`) -/

/-- The update `UPDATE notifications SET response = ?, status = 'read'
WHERE id = ? AND recipient_id = ?`. -/
def updateNotification (db : DB) (notifId userId : Nat) (response : String) : DB :=
  { db with notifications := db.notifications.map fun n =>
      if n.id == notifId && n.recipient_id == userId then
        { n with response := some response, status := "read" }
      else n }

/-- The lookup `SELECT project_id FROM notifications WHERE id = ? AND recipient_id = ?`. -/
def findNotification (db : DB) (notifId userId : Nat) : Option NotifRow :=
  db.notifications.find? fun n => n.id == notifId && n.recipient_id == userId

/-- The `PUT /invitations/:id/respond` handler.  It marks the
notification read with the given response; when the response is
`accepted` it reads the notification's project id back and inserts a
`project_members` row with role `member` and no other columns (so
`current_stage` and `progress_status` default to NULL).  There is no
uniqueness check before the INSERT.  The Bool is `true` on commit and
`false` on rollback (reading `project_id` of a missing notification row
throws, landing in the catch-and-rollback branch). -/
def respondToInvitation (db : DB) (notifId userId : Nat) (response : String) : DB × Bool :=
  let db1 := updateNotification db notifId userId response
  if response == "accepted" then
    match findNotification db1 notifId userId with
    | none => (db, false)
    | some n =>
        let newMember : MemberRow :=
          { project_id := n.project_id, user_id := userId, role := "member" }
        ({ db1 with members := db1.members ++ [newMember] }, true)
  else (db1, true)

/-! ## Project requests (`PUT /admin/project-requests/:id/approve|reject`) -/

/-- The `PUT /admin/project-requests/:id/approve` handler.  The status
update is `WHERE id = ?` with no check of the current status; when the
id matches a row the handler always proceeds to create a fresh
`user_history` row from the request, point its `project_id` at itself,
and insert two `project_members` rows for the requester: role
`project_owner` and role `project_leader`, both with
`progress_status = 'In Progress'`.  Returns the new project id, or
`none` on the 404 path (no row matched, everything rolled back). -/
def approveProjectRequest (db : DB) (requestId reviewerId : Nat) (notes : String) :
    DB × Option Nat :=
  if db.requests.any (fun r => r.id == requestId) then
    let db1 : DB := { db with requests := db.requests.map fun r =>
        if r.id == requestId then
          { r with status := "approved", reviewer_id := some reviewerId,
                   review_notes := some notes }
        else r }
    match db1.requests.find? (fun r => r.id == requestId) with
    | none => (db, none)
    | some request =>
        let projectId := db1.nextId
        let newProject : HistoryRow :=
          { id := projectId, user_id := request.user_id,
            organization := request.organization,
            project_name := request.title,
            project_description := request.description,
            stage := request.project_stage,
            project_id := some projectId, status := "In Progress",
            carbon_emit := 0, session_duration := 0,
            stage_duration := request.stage_duration,
            stage_start_date := request.stage_start_date,
            stage_due_date := request.stage_due_date,
            project_start_date := request.project_start_date,
            project_due_date := request.project_due_date }
        let ownerRow : MemberRow :=
          { project_id := projectId, user_id := request.user_id,
            role := "project_owner", current_stage := some request.project_stage,
            progress_status := some "In Progress" }
        let leaderRow : MemberRow :=
          { project_id := projectId, user_id := request.user_id,
            role := "project_leader", current_stage := some request.project_stage,
            progress_status := some "In Progress" }
        ({ db1 with history := db1.history ++ [newProject],
                    members := db1.members ++ [ownerRow, leaderRow],
                    nextId := db1.nextId + 1 }, some projectId)
  else (db, none)

/-- The `PUT /admin/project-requests/:id/reject` handler: a single
status update `WHERE id = ?`, again with no check of the current
status; `true` when a row matched. -/
def rejectProjectRequest (db : DB) (requestId reviewerId : Nat) (notes : String) :
    DB × Bool :=
  if db.requests.any (fun r => r.id == requestId) then
    ({ db with requests := db.requests.map fun r =>
        if r.id == requestId then
          { r with status := "rejected", reviewer_id := some reviewerId,
                   review_notes := some notes }
        else r }, true)
  else (db, false)

/-! ## Stage Transition Engine (`POST /complete_project/:id`) -/

/-- JavaScript `a || b` on a nullable numeric column: NULL and 0 are
falsy. -/
def jsOr (o : Option Nat) (d : Nat) : Nat :=
  match o with
  | some v => if v == 0 then d else v
  | none => d

/-- JavaScript `currentProject.stage_duration || 14` used for the due
date offset. -/
def stageDurationOrDefault (o : Option Nat) : Nat :=
  jsOr o 14

/-- The upsert
`INSERT INTO project_stage_progress ... ON DUPLICATE KEY UPDATE status = 'Complete', completion_date = NOW()`
over the unique key (project_id, user_id, stage). -/
def upsertStageProgress (db : DB) (projectId userId : Nat) (stage : String) (now : Nat) : DB :=
  if db.progress.any (fun p =>
      p.project_id == projectId && p.user_id == userId && p.stage == stage) then
    { db with progress := db.progress.map fun p =>
        if p.project_id == projectId && p.user_id == userId && p.stage == stage then
          { p with status := "Complete", completion_date := some now }
        else p }
  else
    { db with progress := db.progress ++
        [{ project_id := projectId, user_id := userId, stage := stage,
           status := "Complete", start_date := now, completion_date := some now }] }

/-- The per-row effect of
`UPDATE project_members SET progress_status = 'Stage Complete' WHERE project_id = ? AND user_id = ? AND role != 'project_owner'`. -/
def stageCompleteStep (projectId userId : Nat) (m : MemberRow) : MemberRow :=
  if m.project_id == projectId && m.user_id == userId && m.role != "project_owner" then
    { m with progress_status := some "Stage Complete" }
  else m

/-- That update applied to the whole `project_members` table. -/
def setUserStageComplete (db : DB) (projectId userId : Nat) : DB :=
  { db with members := db.members.map (stageCompleteStep projectId userId) }

/-- The predicate of the `checkExistingQuery` search for the next
stage's instance: same name, same description, stage = nextStage, and
`project_id = ? OR project_id IS NULL`.  The query does not constrain
`status`, so Archived and Complete instances also match. -/
def nextStageCandidate (cur : HistoryRow) (groupId : Nat) (nextStage : String)
    (r : HistoryRow) : Bool :=
  r.project_name == cur.project_name &&
  r.project_description == cur.project_description &&
  r.stage == nextStage &&
  (r.project_id == some groupId || r.project_id == none)

/-- The `user_history` row the `createNextStageQuery` INSERT produces:
organization, name, description and project timeline are cloned from
the current instance, the stage dates are recomputed from `now`, and
status starts as `In Progress` with zeroed accumulators. -/
def nextStageInstance (cur : HistoryRow) (newId groupId : Nat) (nextStage : String)
    (now : Nat) : HistoryRow :=
  { id := newId, user_id := cur.user_id, organization := cur.organization,
    project_name := cur.project_name, project_description := cur.project_description,
    stage := nextStage, project_id := some groupId, status := "In Progress",
    carbon_emit := 0, session_duration := 0,
    stage_duration := cur.stage_duration,
    stage_start_date := now,
    stage_due_date := now + stageDurationOrDefault cur.stage_duration,
    project_start_date := cur.project_start_date,
    project_due_date := cur.project_due_date }

/-- The `project_members` row migrated into the freshly created next
stage instance for an existing member: role preserved, current stage
set to the next stage, and progress per the source's ternary - owners
NULL, the completing user `In Progress`, everyone else `Not Started`. -/
def migratedRow (newId : Nat) (nextStage : String) (userId : Nat) (m : MemberRow) :
    MemberRow :=
  { project_id := newId, user_id := m.user_id, role := m.role,
    current_stage := some nextStage,
    progress_status :=
      if m.role == "project_owner" then none
      else if m.user_id == userId then some "In Progress" else some "Not Started" }

/-- The outcome the `/complete_project/:id` handler reports. -/
inductive StageOutcome where
  /-- Some query or the commit failed; the transaction was rolled back
  and a 500 was returned. -/
  | queryError
  /-- The initial project lookup returned no row (404). -/
  | notFound
  /-- No next stage and every contributing member finished
  (`Project-Completed`). -/
  | projectCompleted
  /-- No next stage; only this user finished (`User-Stage-Completed`). -/
  | userStageCompleted
  /-- A next stage instance exists or was created and all contributing
  members finished (`Stage-Completed`). -/
  | stageCompleted (newStageId : Nat)
  /-- A next stage instance exists or was created; teammates are still
  working (`Stage-User-Completed`). -/
  | stageUserCompleted (newStageId : Nat)
  /-- The new instance was created but the current instance had no
  membership rows to migrate (`Stage completed successfully`). -/
  | migratedNone (newStageId : Nat)
  deriving Repr, DecidableEq

/-- The successful outcomes of the `/complete_project/:id` transaction
(the responses a committed transaction can report). -/
inductive StageSuccess where
  /-- `Project-Completed`. -/
  | projectCompleted
  /-- `User-Stage-Completed`. -/
  | userStageCompleted
  /-- `Stage-Completed` with the next stage's instance id. -/
  | stageCompleted (newStageId : Nat)
  /-- `Stage-User-Completed` with the next stage's instance id. -/
  | stageUserCompleted (newStageId : Nat)
  /-- `Stage completed successfully` (nothing to migrate). -/
  | migratedNone (newStageId : Nat)
  deriving Repr, DecidableEq

/-- The response status a committed transaction reports. -/
def StageSuccess.toOutcome : StageSuccess → StageOutcome
  | .projectCompleted => .projectCompleted
  | .userStageCompleted => .userStageCompleted
  | .stageCompleted n => .stageCompleted n
  | .stageUserCompleted n => .stageUserCompleted n
  | .migratedNone n => .migratedNone n

/-- The body of the `/complete_project/:id` transaction, from
`beginTransaction` to `commit`, threading the store and the
transaction-alive flag through every `queryDatabase` call (query k gets
`fate k`: 1 begin, 2 progress upsert, 3 member update, 4/5 the
Completion Evaluator's queries, 6 commit or existing-instance search,
then the branch's queries and the final commit).  The result is the
persisted store plus `some outcome` on a success response, or `none` on
the 500 path - which, after a connection loss has replaced the
connection mid-unit, is NOT the pre-call store. -/
def completeProjectTx (fate : Nat → QueryFate) (db : DB) (currentProject : HistoryRow)
    (projectId userId : Nat) (currentStage : Option String)
    (nextStage : Option String) (now : Nat) : DB × Option StageSuccess :=
  match fate 1 with
  | QueryFate.ok =>
    match runQuery (fate 2) true db db (fun s => upsertStageProgress s projectId userId
        (currentStage.getD currentProject.stage) now) with
    | none => (db, none)
    | some (db1, t1) =>
      match runQuery (fate 3) t1 db db1 (fun s => setUserStageComplete s projectId userId) with
      | none => (rollbackState t1 db db1, none)
      | some (db2, t2) =>
        match checkCompletionFates (fate 4) (fate 5) t2 db db2 projectId with
        | ((s3, t3), none) => (rollbackState t3 db s3, none)
        | ((db3, t3), some allCompleted) =>
          match nextStage with
          | none =>
            commitQuery (fate 6) t3 db db3
              (if allCompleted then StageSuccess.projectCompleted
               else StageSuccess.userStageCompleted)
          | some ns =>
            match runQuery (fate 6) t3 db db3 id with
            | none => (rollbackState t3 db db3, none)
            | some (db4, t4) =>
              let groupId := jsOr currentProject.project_id projectId
              match db4.history.find? (nextStageCandidate currentProject groupId ns) with
              | some existing =>
                match runQuery (fate 7) t4 db db4 id with
                | none => (rollbackState t4 db db4, none)
                | some (db5, t5) =>
                  if (db5.members.filter fun m =>
                      m.project_id == existing.id && m.user_id == userId).isEmpty then
                    match runQuery (fate 8) t5 db db5 (fun s =>
                        { s with members := s.members ++ ((s.members.filter fun m =>
                            m.project_id == projectId && m.user_id == userId).map fun m =>
                          ({ project_id := existing.id, user_id := m.user_id,
                             role := m.role, current_stage := some ns,
                             progress_status := some "In Progress" } : MemberRow)) }) with
                    | none => (rollbackState t5 db db5, none)
                    | some (db6, t6) =>
                      commitQuery (fate 9) t6 db db6
                        (if allCompleted then StageSuccess.stageCompleted existing.id
                         else StageSuccess.stageUserCompleted existing.id)
                  else
                    match runQuery (fate 8) t5 db db5 (fun s =>
                        { s with members := s.members.map fun m =>
                          if m.project_id == existing.id && m.user_id == userId then
                            { m with progress_status := some "In Progress" }
                          else m }) with
                    | none => (rollbackState t5 db db5, none)
                    | some (db6, t6) =>
                      commitQuery (fate 9) t6 db db6
                        (if allCompleted then StageSuccess.stageCompleted existing.id
                         else StageSuccess.stageUserCompleted existing.id)
              | none =>
                match fate 7 with
                | QueryFate.err => (rollbackState t4 db db4, none)
                | f =>
                  let base := queryBase f t4 db db4
                  let newId := base.nextId
                  let db5 := { base with
                    history := (base.history ++
                      [nextStageInstance currentProject newId groupId ns now]),
                    nextId := newId + 1 }
                  let t5 := queryTxn f t4
                  match runQuery (fate 8) t5 db db5 id with
                  | none => (rollbackState t5 db db5, none)
                  | some (db6, t6) =>
                    let memberValues := (db6.members.filter fun m =>
                        m.project_id == projectId).map (migratedRow newId ns userId)
                    if memberValues.isEmpty then
                      commitQuery (fate 9) t6 db db6 (StageSuccess.migratedNone newId)
                    else
                      match runQuery (fate 9) t6 db db6 (fun s =>
                          { s with members := s.members ++ memberValues }) with
                      | none => (rollbackState t6 db db6, none)
                      | some (db7, t7) =>
                        match runQuery (fate 10) t7 db db7 id with
                        | none => (rollbackState t7 db db7, none)
                        | some (db8, t8) =>
                          match runQuery (fate 11) t8 db db8 id with
                          | none => (rollbackState t8 db db8, none)
                          | some (db9, t9) =>
                            commitQuery (fate 12) t9 db db9
                              (if allCompleted then StageSuccess.stageCompleted newId
                               else StageSuccess.stageUserCompleted newId)
  | _ => (db, none)

/-- The `POST /complete_project/:id` handler: query 0 is the project
lookup - read-only and outside the transaction, so an error is a plain
500 with nothing to undo and a connection loss just re-reads - then the
transaction body; a `none` from it surfaces as a 500. -/
def completeProject (fate : Nat → QueryFate) (db : DB) (projectId userId : Nat)
    (currentStage : Option String) (nextStage : Option String) (now : Nat) :
    DB × StageOutcome :=
  match fate 0 with
  | QueryFate.err => (db, .queryError)
  | _ =>
    match db.history.find? (fun r => r.id == projectId) with
    | none => (db, .notFound)
    | some currentProject =>
      match completeProjectTx fate db currentProject projectId userId
          currentStage nextStage now with
      | (db2, none) => (db2, .queryError)
      | (db2, some s) => (db2, s.toOutcome)

/-! ## Concrete stores for evaluating the handlers -/

/-- A store holding one pending project request. -/
def pendingRequestDB : DB :=
  { requests := [{ id := 1, user_id := 7, title := "X", description := "Y",
                   project_stage := "Design", status := "pending" }],
    nextId := 1 }

/-- A store holding one project with a contributing member (user 2 not
yet on it) and one pending invitation for user 2 on that project. -/
def invitationDB : DB :=
  { history := [{ id := 1, user_id := 7, project_name := "P",
                  project_description := "D", stage := "Design",
                  status := "In Progress" }],
    members := [{ project_id := 1, user_id := 8, role := "member",
                  progress_status := some "Stage Complete" }],
    notifications := [{ id := 5, sender_id := 7, recipient_id := 2,
                        project_id := 1, ntype := "project_invitation",
                        message := "join" }],
    nextId := 2 }

/-- A store where project group 1 has an `In Progress` Design instance
(id 1, owner 7, contributor 8) and an `Archived` Development instance
(id 2) - so no non-archived Development instance of the group exists. -/
def archivedNextStageDB : DB :=
  { history := [{ id := 1, user_id := 7, project_name := "P",
                  project_description := "D", stage := "Design",
                  project_id := some 1, status := "In Progress",
                  stage_duration := some 10 },
                { id := 2, user_id := 7, project_name := "P",
                  project_description := "D", stage := "Development",
                  project_id := some 1, status := "Archived" }],
    members := [{ project_id := 1, user_id := 7, role := "project_owner" },
                { project_id := 1, user_id := 8, role := "member",
                  progress_status := some "In Progress" }],
    nextId := 3 }

/-- A store like `archivedNextStageDB` but with no Development instance
at all, and a second contributor (user 9) who already finished. -/
def freshNextStageDB : DB :=
  { history := [{ id := 1, user_id := 7, project_name := "P",
                  project_description := "D", stage := "Design",
                  project_id := some 1, status := "In Progress",
                  stage_duration := some 10 }],
    members := [{ project_id := 1, user_id := 7, role := "project_owner" },
                { project_id := 1, user_id := 8, role := "member",
                  progress_status := some "In Progress" },
                { project_id := 1, user_id := 9, role := "member",
                  progress_status := some "Stage Complete" }],
    nextId := 3 }

/-- A store like `freshNextStageDB` whose Design instance has
`stage_duration = 0` (falsy in JavaScript), exercising the 14-day
fallback of the due-date computation. -/
def zeroDurationDB : DB :=
  { history := [{ id := 1, user_id := 7, project_name := "P",
                  project_description := "D", stage := "Design",
                  project_id := some 1, status := "In Progress",
                  stage_duration := some 0 }],
    members := [{ project_id := 1, user_id := 7, role := "project_owner" },
                { project_id := 1, user_id := 8, role := "member",
                  progress_status := some "In Progress" }],
    nextId := 3 }

/-! ## Helper lemmas -/

theorem mem_contributingMembers {db : DB} {pid : Nat} {m : MemberRow} :
    m ∈ contributingMembers db pid ↔
      m ∈ db.members ∧ m.project_id = pid ∧ m.role ≠ "project_owner" := by
  simp [contributingMembers, List.mem_filter, and_assoc]

theorem checkAndUpdate_eq (db : DB) (pid : Nat) :
    checkAndUpdateProjectCompletion db pid =
      if contributingMembers db pid = [] then (db, false)
      else if (contributingMembers db pid).all
          (fun m => m.progress_status == some "Stage Complete") then
        (markProjectComplete db pid, true)
      else (db, false) := by
  unfold checkAndUpdateProjectCompletion checkCompletionFates runQuery queryBase queryTxn
  simp only [id, List.length_eq_zero, beq_iff_eq]
  split
  · simp_all
  · split <;> simp_all

/-! ## C1: the Completion Evaluator's contract -/

/-- C1.  `checkAndUpdateProjectCompletion` reports the instance complete
iff it has at least one non-owner membership and every non-owner
membership's progress status is `Stage Complete` (in particular, with
zero non-owner memberships it never reports complete), and whenever it
reports complete the instance's status has been set to `Complete`. -/
theorem completion_evaluator_correct (db : DB) (pid : Nat) :
    ((checkAndUpdateProjectCompletion db pid).2 = true ↔
      contributingMembers db pid ≠ [] ∧
        ∀ m ∈ contributingMembers db pid,
          m.progress_status = some "Stage Complete") ∧
    ((checkAndUpdateProjectCompletion db pid).2 = true →
      ∀ r ∈ (checkAndUpdateProjectCompletion db pid).1.history,
        r.id = pid → r.status = "Complete") := by
  rw [checkAndUpdate_eq]
  split
  · rename_i h
    simp [h]
  · rename_i h
    split
    · rename_i hall
      simp only [List.all_eq_true, beq_iff_eq] at hall
      refine ⟨by simp only [true_iff]; exact ⟨h, hall⟩, fun _ r hr hrid => ?_⟩
      simp only [markProjectComplete, List.mem_map] at hr
      obtain ⟨r0, _, hr0⟩ := hr
      by_cases hid : r0.id = pid
      · simp [hid] at hr0
        simp [← hr0]
      · simp [hid] at hr0
        subst hr0
        exact absurd hrid hid
    · rename_i hall
      simp only [List.all_eq_true, beq_iff_eq] at hall
      push_neg at hall
      constructor
      · simp only [Bool.false_eq_true, false_iff, not_and]
        intro _ hforall
        obtain ⟨m, hm, hne⟩ := hall
        exact hne (hforall m hm)
      · simp

/-- Witness for C1 at a store with one contributing member who has
finished the stage. -/
theorem completion_evaluator_correct_witness :
    (checkAndUpdateProjectCompletion
      { history := [{ id := 1, user_id := 7, project_name := "P",
                      project_description := "D", stage := "Design",
                      status := "In Progress" }],
        members := [{ project_id := 1, user_id := 8, role := "member",
                      progress_status := some "Stage Complete" }] } 1).2 = true :=
  (completion_evaluator_correct _ 1).1.mpr ⟨by decide, by decide⟩

/-! ## C10: the Completion Evaluator's frame -/

/-- C10.  When the evaluator reports not-complete it writes nothing at
all (the store is returned unchanged); membership rows and the other
tables are never touched, and the only write it ever performs is
setting the instance's status to `Complete` in the all-complete case,
leaving every other `user_history` row as it was. -/
theorem completion_evaluator_frame (db : DB) (pid : Nat) :
    ((checkAndUpdateProjectCompletion db pid).2 = false →
      (checkAndUpdateProjectCompletion db pid).1 = db) ∧
    ((checkAndUpdateProjectCompletion db pid).2 = true →
      (checkAndUpdateProjectCompletion db pid).1 = markProjectComplete db pid) ∧
    (checkAndUpdateProjectCompletion db pid).1.members = db.members ∧
    (checkAndUpdateProjectCompletion db pid).1.progress = db.progress ∧
    (checkAndUpdateProjectCompletion db pid).1.notifications = db.notifications ∧
    (checkAndUpdateProjectCompletion db pid).1.requests = db.requests ∧
    (∀ r ∈ db.history, r.id ≠ pid →
      r ∈ (checkAndUpdateProjectCompletion db pid).1.history) := by
  rw [checkAndUpdate_eq]
  split
  · exact ⟨fun _ => rfl, by simp, rfl, rfl, rfl, rfl, fun r hr _ => hr⟩
  · split
    · refine ⟨by simp, by simp, rfl, rfl, rfl, rfl, fun r hr hne => ?_⟩
      simp only [markProjectComplete, List.mem_map]
      exact ⟨r, hr, by simp [hne]⟩
    · exact ⟨fun _ => rfl, by simp, rfl, rfl, rfl, rfl, fun r hr _ => hr⟩

/-- Witness for C10 at a store whose single contributor has not
finished: the evaluator leaves the store untouched. -/
theorem completion_evaluator_frame_witness :
    (checkAndUpdateProjectCompletion
      { history := [{ id := 1, user_id := 7, project_name := "P",
                      project_description := "D", stage := "Design",
                      status := "In Progress" }],
        members := [{ project_id := 1, user_id := 8, role := "member",
                      progress_status := some "In Progress" }] } 1).1 =
      { history := [{ id := 1, user_id := 7, project_name := "P",
                      project_description := "D", stage := "Design",
                      status := "In Progress" }],
        members := [{ project_id := 1, user_id := 8, role := "member",
                      progress_status := some "In Progress" }] } :=
  (completion_evaluator_frame _ 1).1 (by decide)

/-! ## C9: initial state of a membership gained through an invitation -/

theorem findNotification_updateNotification (db : DB) (nid uid : Nat) (resp : String) :
    findNotification (updateNotification db nid uid resp) nid uid =
      (findNotification db nid uid).map
        (fun n => { n with response := some resp, status := "read" }) := by
  unfold findNotification updateNotification
  rw [List.find?_map]
  have hp : ((fun n : NotifRow => n.id == nid && n.recipient_id == uid) ∘
      fun n => if n.id == nid && n.recipient_id == uid then
        { n with response := some resp, status := "read" }
      else n) = fun n : NotifRow => n.id == nid && n.recipient_id == uid := by
    funext n
    show (fun n : NotifRow => n.id == nid && n.recipient_id == uid)
        (if n.id == nid && n.recipient_id == uid then
          { n with response := some resp, status := "read" } else n) =
      (n.id == nid && n.recipient_id == uid)
    by_cases h : (n.id == nid && n.recipient_id == uid) = true
    · rw [if_pos h]
    · rw [if_neg h]
  rw [hp]
  cases hf : db.notifications.find? (fun n => n.id == nid && n.recipient_id == uid) with
  | none => rfl
  | some n =>
      have hn := List.find?_some hf
      simp only [Option.map_some', hn, if_true]

/-- C9.  Accepting an invitation inserts a membership with role
`member` whose `current_stage` and `progress_status` are NULL (the
INSERT names neither column), and as long as that row stands the
Completion Evaluator cannot report the instance complete. -/
theorem accepted_invitation_initial_state (db : DB) (nid uid : Nat) (n : NotifRow)
    (hfind : findNotification db nid uid = some n) :
    ({ project_id := n.project_id, user_id := uid, role := "member",
       current_stage := none, progress_status := none : MemberRow } ∈
        (respondToInvitation db nid uid "accepted").1.members) ∧
    (checkAndUpdateProjectCompletion (respondToInvitation db nid uid "accepted").1
        n.project_id).2 = false := by
  have hmembers : (respondToInvitation db nid uid "accepted").1.members =
      (updateNotification db nid uid "accepted").members ++
        [(⟨n.project_id, uid, "member", none, none⟩ : MemberRow)] := by
    simp only [respondToInvitation, beq_self_eq_true, if_true,
      findNotification_updateNotification, hfind, Option.map_some']
  have hmem : ((⟨n.project_id, uid, "member", none, none⟩ : MemberRow) ∈
        (respondToInvitation db nid uid "accepted").1.members) := by
    rw [hmembers]
    simp
  refine ⟨hmem, ?_⟩
  rw [checkAndUpdate_eq]
  have hcontrib : ((⟨n.project_id, uid, "member", none, none⟩ : MemberRow) ∈
        contributingMembers (respondToInvitation db nid uid "accepted").1 n.project_id) :=
    mem_contributingMembers.mpr ⟨hmem, rfl, by simp⟩
  split
  · rfl
  · split
    · rename_i hall
      simp only [List.all_eq_true, beq_iff_eq] at hall
      exact absurd (hall _ hcontrib) (by simp)
    · rfl

/-- Witness for C9 on `invitationDB`: user 2 accepts invitation 5. -/
theorem accepted_invitation_initial_state_witness :
    ({ project_id := 1, user_id := 2, role := "member",
       current_stage := none, progress_status := none : MemberRow } ∈
        (respondToInvitation invitationDB 5 2 "accepted").1.members) ∧
    (checkAndUpdateProjectCompletion (respondToInvitation invitationDB 5 2 "accepted").1
        1).2 = false :=
  accepted_invitation_initial_state invitationDB 5 2
    { id := 5, sender_id := 7, recipient_id := 2, project_id := 1,
      ntype := "project_invitation", message := "join" } (by decide)

/-! ## C3: the second `accepted` response duplicates the membership -/

/-- C3 (code bug).  Responding `accepted` twice to the same invitation
runs the unguarded `INSERT INTO project_members` twice: afterwards TWO
membership rows exist for the (instance, recipient) pair, not one.  No
uniqueness is enforced anywhere in the handler. -/
theorem second_accept_duplicates_membership :
    (((respondToInvitation (respondToInvitation invitationDB 5 2 "accepted").1
        5 2 "accepted").1.members.filter
      (fun m => m.project_id == 1 && m.user_id == 2)).length = 2) := by decide

/-! ## C2: the owner-progress invariant is violated on approval -/

/-- C2 (code bug).  Approving a project request inserts the requester's
`project_owner` membership with `progress_status = 'In Progress'`, not
NULL - contradicting the migration code's own rule ("ensure
project_owner always has NULL progress_status") and the admin
project-creation path, which both insert owners with NULL. -/
theorem approval_owner_progress_not_null :
    ({ project_id := 1, user_id := 7, role := "project_owner",
       current_stage := some "Design",
       progress_status := some "In Progress" : MemberRow } ∈
      (approveProjectRequest pendingRequestDB 1 9 "ok").1.members) := by decide

/-! ## C7: re-deciding an already-decided request is not a conflict -/

/-- C7 (code bug).  The approve handler's status update is
`WHERE id = ?` with no check that the request is still pending, so
approving the same request a second time succeeds and creates a second
`user_history` instance plus two more membership rows; rejecting the
already-approved request also succeeds.  No Conflict error exists. -/
theorem reapproval_creates_second_instance :
    ((approveProjectRequest (approveProjectRequest pendingRequestDB 1 9 "ok").1
        1 9 "ok").2 = some 2) ∧
    ((approveProjectRequest (approveProjectRequest pendingRequestDB 1 9 "ok").1
        1 9 "ok").1.history.length = 2) ∧
    ((approveProjectRequest (approveProjectRequest pendingRequestDB 1 9 "ok").1
        1 9 "ok").1.members.length = 4) ∧
    ((rejectProjectRequest (approveProjectRequest pendingRequestDB 1 9 "ok").1
        1 9 "no").2 = true) := by decide


/-! ## C6: the emission delta formulas -/

/-- C6 counterexample.  On the mobile/laptop path the claimed formula -
which sums CPU, GPU, RAM AND PSU wattage - disagrees with the code: a
device with 100/100/25 W components and a 25 W PSU over a 3600 s
session in an unrecognized region yields 92.7, not the 103.0 the
four-component formula gives. -/
theorem mobile_delta_ignores_psu :
    calculate_emissionsM ⟨100, 100, 25, 25⟩ 3600 none ≠
      (((100 : Rat) + 100 + 25 + 25) / 3600 * 3600) * getCarbonFactor none := by
  have hf : getCarbonFactor none = 412/1000 := rfl
  show (((100 : Rat) + 100 + 25) * 3600) / 3600 * getCarbonFactor none ≠ _
  rw [hf]
  norm_num

/-- C6 amended.  The desktop delta is
`(cpu + gpu + ram + psu) / 3600 * duration * factor`; the mobile/laptop
delta uses only `cpu + gpu + ram` (the device's PSU wattage is ignored
there); the factor is 0.412 for every region other than the two known
ones; the desktop scenario (250 W total, 3600 s, unknown region) gives
exactly 103.0; and the desktop update adds exactly that delta to the
matching instance's `carbon_emit`. -/
theorem emission_delta_formulas :
    (∀ d : DeviceWatts, ∀ dur : Rat, ∀ region : Option String,
      calculate_emissions d dur region =
        (d.cpu + d.gpu + d.ram + d.psu) / 3600 * dur * getCarbonFactor region) ∧
    (∀ d : DeviceWatts, ∀ dur : Rat, ∀ region : Option String,
      calculate_emissionsM d dur region =
        (d.cpu + d.gpu + d.ram) / 3600 * dur * getCarbonFactor region) ∧
    (∀ region : Option String,
      region ≠ some "Singapore" → region ≠ some "Philippines" →
        getCarbonFactor region = 412/1000) ∧
    (calculate_emissions ⟨100, 100, 25, 25⟩ 3600 none = 103) ∧
    (∀ db : DB, ∀ pid uid : Nat, ∀ r : HistoryRow, r ∈ db.history →
      desktopAccrueCond db uid pid r = true →
        { r with carbon_emit := r.carbon_emit + 103 } ∈
          (applyDesktopAccrual db pid uid 103).history) := by
  refine ⟨?_, ?_, ?_, ?_, ?_⟩
  · intro d dur region
    simp only [calculate_emissions]
  · intro d dur region
    simp only [calculate_emissionsM]
    ring
  · intro region h1 h2
    simp [getCarbonFactor, h1, h2]
  · show (((100 : Rat) + 100 + 25 + 25) / 3600) * 3600 * getCarbonFactor none = 103
    rw [show getCarbonFactor none = 412/1000 from rfl]
    norm_num
  · intro db pid uid r hr hcond
    simp only [applyDesktopAccrual, List.mem_map]
    exact ⟨r, hr, by simp [desktopStep, hcond]⟩

/-- Witness for C6: the unrecognized region `Mars`, and one concrete
accrual of 103 on `invitationDB`'s single project row. -/
theorem emission_delta_formulas_witness :
    getCarbonFactor (some "Mars") = 412/1000 ∧
    ({ id := 1, user_id := 7, project_name := "P", project_description := "D",
       stage := "Design", status := "In Progress",
       carbon_emit := (0 : Rat) + 103 : HistoryRow } ∈
      (applyDesktopAccrual invitationDB 1 7 103).history) :=
  ⟨emission_delta_formulas.2.2.1 (some "Mars") (by decide) (by decide),
   emission_delta_formulas.2.2.2.2 invitationDB 1 7
     { id := 1, user_id := 7, project_name := "P", project_description := "D",
       stage := "Design", status := "In Progress" }
     (List.mem_singleton.mpr rfl) rfl⟩

/-! ## C8: accrual increments are additive and order-independent -/

theorem desktopAccrueCond_carbon (db : DB) (uid pid : Nat) (r : HistoryRow) (c : Rat) :
    desktopAccrueCond db uid pid { r with carbon_emit := c } =
      desktopAccrueCond db uid pid r := rfl

theorem applyDesktopAccrual_twice (db : DB) (pid u1 u2 : Nat) (d1 d2 : Rat) :
    applyDesktopAccrual (applyDesktopAccrual db pid u1 d1) pid u2 d2 =
      { db with history := (db.history.map
          (desktopStep db pid u2 d2 ∘ desktopStep db pid u1 d1)) } := by
  show ({ db with history :=
      (db.history.map (desktopStep db pid u1 d1)).map (desktopStep db pid u2 d2) } : DB) = _
  rw [List.map_map]

theorem desktopStep_comm (db : DB) (pid u1 u2 : Nat) (d1 d2 : Rat) :
    desktopStep db pid u2 d2 ∘ desktopStep db pid u1 d1 =
      desktopStep db pid u1 d1 ∘ desktopStep db pid u2 d2 := by
  funext r
  simp only [Function.comp, desktopStep]
  by_cases h1 : desktopAccrueCond db u1 pid r = true <;>
    by_cases h2 : desktopAccrueCond db u2 pid r = true <;>
      simp [h1, h2, desktopAccrueCond_carbon, add_right_comm]

theorem desktopStep_add (db : DB) (pid u1 u2 : Nat) (d1 d2 : Rat) (r : HistoryRow)
    (h1 : desktopAccrueCond db u1 pid r = true)
    (h2 : desktopAccrueCond db u2 pid r = true) :
    (desktopStep db pid u2 d2 ∘ desktopStep db pid u1 d1) r =
      { r with carbon_emit := r.carbon_emit + (d1 + d2) } := by
  simp [Function.comp, desktopStep, h1, h2, desktopAccrueCond_carbon, add_assoc]

theorem mobileStep_cond (pid uid : Nat) (r : HistoryRow) (s c : Rat) :
    (({ r with session_duration := s, carbon_emit := c } : HistoryRow).id == pid &&
      ({ r with session_duration := s, carbon_emit := c } : HistoryRow).user_id == uid) =
      (r.id == pid && r.user_id == uid) := rfl

theorem applyMobileAccrual_twice (db : DB) (pid u1 u2 : Nat) (s1 s2 e1 e2 : Rat) :
    applyMobileAccrual (applyMobileAccrual db pid u1 s1 e1) pid u2 s2 e2 =
      { db with history := (db.history.map
          (mobileStep pid u2 s2 e2 ∘ mobileStep pid u1 s1 e1)) } := by
  show ({ db with history :=
      (db.history.map (mobileStep pid u1 s1 e1)).map (mobileStep pid u2 s2 e2) } : DB) = _
  rw [List.map_map]

theorem mobileStep_comm (pid u1 u2 : Nat) (s1 s2 e1 e2 : Rat) :
    mobileStep pid u2 s2 e2 ∘ mobileStep pid u1 s1 e1 =
      mobileStep pid u1 s1 e1 ∘ mobileStep pid u2 s2 e2 := by
  funext r
  simp only [Function.comp, mobileStep]
  by_cases h1 : (r.id == pid && r.user_id == u1) = true <;>
    by_cases h2 : (r.id == pid && r.user_id == u2) = true <;>
      simp [h1, h2, mobileStep_cond, add_right_comm]

theorem mobileStep_add (pid u1 u2 : Nat) (s1 s2 e1 e2 : Rat) (r : HistoryRow)
    (h1 : (r.id == pid && r.user_id == u1) = true)
    (h2 : (r.id == pid && r.user_id == u2) = true) :
    (mobileStep pid u2 s2 e2 ∘ mobileStep pid u1 s1 e1) r =
      { r with session_duration := r.session_duration + (s1 + s2),
               carbon_emit := r.carbon_emit + (e1 + e2) } := by
  simp [Function.comp, mobileStep, h1, h2, mobileStep_cond, add_assoc]

/-- C8.  Emission accrual is additive and order-independent: on both
the desktop and the mobile update, two accruals with deltas d1 and d2
commute as state transformations, and a row matched by both calls ends
with its `carbon_emit` (and, on mobile, its `session_duration`)
increased by exactly the sum - each SQL update being a relative
increment, never an overwrite of a read value. -/
theorem accrual_additivity (db : DB) (pid u1 u2 : Nat) (d1 d2 s1 s2 e1 e2 : Rat) :
    (applyDesktopAccrual (applyDesktopAccrual db pid u1 d1) pid u2 d2 =
      applyDesktopAccrual (applyDesktopAccrual db pid u2 d2) pid u1 d1) ∧
    (∀ r ∈ db.history, desktopAccrueCond db u1 pid r = true →
      desktopAccrueCond db u2 pid r = true →
        { r with carbon_emit := r.carbon_emit + (d1 + d2) } ∈
          (applyDesktopAccrual (applyDesktopAccrual db pid u1 d1) pid u2 d2).history) ∧
    (applyMobileAccrual (applyMobileAccrual db pid u1 s1 e1) pid u2 s2 e2 =
      applyMobileAccrual (applyMobileAccrual db pid u2 s2 e2) pid u1 s1 e1) ∧
    (∀ r ∈ db.history, (r.id == pid && r.user_id == u1) = true →
      (r.id == pid && r.user_id == u2) = true →
        { r with session_duration := r.session_duration + (s1 + s2),
                 carbon_emit := r.carbon_emit + (e1 + e2) } ∈
          (applyMobileAccrual (applyMobileAccrual db pid u1 s1 e1) pid u2 s2 e2).history) := by
  refine ⟨?_, ?_, ?_, ?_⟩
  · rw [applyDesktopAccrual_twice, applyDesktopAccrual_twice, desktopStep_comm]
  · intro r hr h1 h2
    rw [applyDesktopAccrual_twice]
    exact desktopStep_add db pid u1 u2 d1 d2 r h1 h2 ▸ List.mem_map_of_mem _ hr
  · rw [applyMobileAccrual_twice, applyMobileAccrual_twice, mobileStep_comm]
  · intro r hr h1 h2
    rw [applyMobileAccrual_twice]
    exact mobileStep_add pid u1 u2 s1 s2 e1 e2 r h1 h2 ▸ List.mem_map_of_mem _ hr

/-- Witness for C8: two desktop accruals of 3/2 and 5/2 by the owner on
`invitationDB`'s single project row add exactly 4. -/
theorem accrual_additivity_witness :
    ({ id := 1, user_id := 7, project_name := "P", project_description := "D",
       stage := "Design", status := "In Progress",
       carbon_emit := (0 : Rat) + (3/2 + 5/2) : HistoryRow } ∈
      (applyDesktopAccrual
        (applyDesktopAccrual invitationDB 1 7 (3/2)) 1 7 (5/2)).history) :=
  (accrual_additivity invitationDB 1 7 7 (3/2) (5/2) 0 0 0 0).2.1
    { id := 1, user_id := 7, project_name := "P", project_description := "D",
      stage := "Design", status := "In Progress" }
    (List.mem_singleton.mpr rfl) rfl rfl

/-! ## C5: completeStage is not all-or-nothing under connection loss -/

theorem runQuery_ok (inTxn : Bool) (snapshot cur : DB) (w : DB → DB) :
    runQuery QueryFate.ok inTxn snapshot cur w = some (w cur, inTxn) := rfl

theorem commitQuery_ok {α : Type} (inTxn : Bool) (snapshot cur : DB) (out : α) :
    commitQuery QueryFate.ok inTxn snapshot cur out = (cur, some out) := rfl

/-- C5 (code bug).  The unit of work is NOT atomic: when the
member-progress UPDATE (query 3) hits a connection-class error,
`queryDatabase` reconnects and re-executes it on a fresh autocommit
connection; the transaction opened on the old connection is gone, so
the progress-record upsert of query 2 is silently lost while the
re-executed update, the Completion Evaluator's status write and the
no-op commit all persist - and the handler still reports success.  On
`freshNextStageDB` the run answers `Project-Completed` with an empty
`project_stage_progress` table (second conjunct) even though other
writes persisted (third conjunct) and the healthy run does record the
progress row (fourth conjunct): a partial suffix of the unit
committed. -/
theorem connection_loss_commits_partial_writes :
    ((completeProject (fun k => if k == 3 then QueryFate.lost else QueryFate.ok)
        freshNextStageDB 1 8 none none 100).2 = StageOutcome.projectCompleted) ∧
    ((completeProject (fun k => if k == 3 then QueryFate.lost else QueryFate.ok)
        freshNextStageDB 1 8 none none 100).1.progress = []) ∧
    ((completeProject (fun k => if k == 3 then QueryFate.lost else QueryFate.ok)
        freshNextStageDB 1 8 none none 100).1.members ≠ freshNextStageDB.members) ∧
    ((completeProject (fun _ => QueryFate.ok)
        freshNextStageDB 1 8 none none 100).1.progress ≠ []) := by
  decide

/-! ## C4: creation and migration of the next stage instance -/

theorem upsertStageProgress_history (db : DB) (pid uid : Nat) (s : String) (now : Nat) :
    (upsertStageProgress db pid uid s now).history = db.history := by
  unfold upsertStageProgress
  split <;> rfl

theorem upsertStageProgress_members (db : DB) (pid uid : Nat) (s : String) (now : Nat) :
    (upsertStageProgress db pid uid s now).members = db.members := by
  unfold upsertStageProgress
  split <;> rfl

theorem upsertStageProgress_nextId (db : DB) (pid uid : Nat) (s : String) (now : Nat) :
    (upsertStageProgress db pid uid s now).nextId = db.nextId := by
  unfold upsertStageProgress
  split <;> rfl

theorem stageCompleteStep_project_id (pid uid : Nat) (m : MemberRow) :
    (stageCompleteStep pid uid m).project_id = m.project_id := by
  unfold stageCompleteStep
  split <;> rfl

theorem stageCompleteStep_user_id (pid uid : Nat) (m : MemberRow) :
    (stageCompleteStep pid uid m).user_id = m.user_id := by
  unfold stageCompleteStep
  split <;> rfl

theorem stageCompleteStep_role (pid uid : Nat) (m : MemberRow) :
    (stageCompleteStep pid uid m).role = m.role := by
  unfold stageCompleteStep
  split <;> rfl

theorem queryBase_ok (t : Bool) (s c : DB) : queryBase QueryFate.ok t s c = c := rfl

theorem queryTxn_ok (t : Bool) : queryTxn QueryFate.ok t = t := rfl

theorem checkCompletionFates_ok (inTxn : Bool) (snapshot db : DB) (pid : Nat) :
    checkCompletionFates QueryFate.ok QueryFate.ok inTxn snapshot db pid =
      (((checkAndUpdateProjectCompletion db pid).1, inTxn),
        some (checkAndUpdateProjectCompletion db pid).2) := by
  unfold checkAndUpdateProjectCompletion checkCompletionFates runQuery queryBase queryTxn
  simp only [id]
  split
  · rfl
  · split <;> rfl

theorem checkCompletion_frame_parts (db : DB) (pid : Nat) :
    (checkAndUpdateProjectCompletion db pid).1.members = db.members ∧
      (checkAndUpdateProjectCompletion db pid).1.nextId = db.nextId ∧
      ((checkAndUpdateProjectCompletion db pid).1.history = db.history ∨
        (checkAndUpdateProjectCompletion db pid).1.history =
          db.history.map fun r =>
            if r.id == pid then { r with status := "Complete" } else r) := by
  rw [checkAndUpdate_eq]
  split
  · exact ⟨rfl, rfl, Or.inl rfl⟩
  · split
    · exact ⟨rfl, rfl, Or.inr rfl⟩
    · exact ⟨rfl, rfl, Or.inl rfl⟩

theorem nextStageCandidate_statusUpdate (cur : HistoryRow) (g : Nat) (ns : String)
    (pid : Nat) (r : HistoryRow) :
    nextStageCandidate cur g ns
        (if r.id == pid then { r with status := "Complete" } else r) =
      nextStageCandidate cur g ns r := by
  by_cases h : (r.id == pid) = true
  · rw [if_pos h]
    unfold nextStageCandidate
    rfl
  · rw [if_neg h]

/-- C4 (amended).  When `completeStage` runs with a `nextStage` and the
handler's search - which matches on project name, description, stage
label and `project_id` = group-or-NULL, regardless of status - finds
nothing, a new instance is created cloning organization, name,
description and project timeline from the current instance, with
`stage_start_date = now`, `stage_due_date = now + stage_duration` -
falling back to 14 days when `stage_duration` is NULL or zero, since
`currentProject.stage_duration || 14` treats both as falsy - status
`In Progress` and zeroed accumulators;
and every membership of the current instance is migrated into it
preserving role, with progress `In Progress` for the completing user,
`Not Started` for other non-owners, and NULL for owners. -/
theorem completeStage_creates_next_stage (db : DB) (projectId userId : Nat)
    (currentStage : Option String) (ns : String) (now : Nat) (cur : HistoryRow)
    (hcur : db.history.find? (fun r => r.id == projectId) = some cur)
    (hnone : ∀ r ∈ db.history,
      nextStageCandidate cur (jsOr cur.project_id projectId) ns r = false) :
    (∃ r ∈ (completeProject (fun _ => QueryFate.ok) db projectId userId currentStage
        (some ns) now).1.history,
      r.id = db.nextId ∧ r.organization = cur.organization ∧
      r.project_name = cur.project_name ∧
      r.project_description = cur.project_description ∧
      r.stage = ns ∧ r.project_id = some (jsOr cur.project_id projectId) ∧
      r.status = "In Progress" ∧ r.carbon_emit = 0 ∧ r.session_duration = 0 ∧
      r.stage_duration = cur.stage_duration ∧ r.stage_start_date = now ∧
      r.stage_due_date = now + (match cur.stage_duration with
        | none => 14
        | some d => if d = 0 then 14 else d) ∧
      r.project_start_date = cur.project_start_date ∧
      r.project_due_date = cur.project_due_date) ∧
    (∀ m ∈ db.members, m.project_id = projectId →
      ∃ m2 ∈ (completeProject (fun _ => QueryFate.ok) db projectId userId currentStage
          (some ns) now).1.members,
        m2.project_id = db.nextId ∧ m2.user_id = m.user_id ∧ m2.role = m.role ∧
        m2.current_stage = some ns ∧
        m2.progress_status =
          (if m.role = "project_owner" then none
           else if m.user_id = userId then some "In Progress"
           else some "Not Started")) := by
  obtain ⟨hmem3, hnext3, hhist3⟩ := checkCompletion_frame_parts
    (setUserStageComplete (upsertStageProgress db projectId userId
      (currentStage.getD cur.stage) now) projectId userId) projectId
  have h2hist : (setUserStageComplete (upsertStageProgress db projectId userId
      (currentStage.getD cur.stage) now) projectId userId).history = db.history :=
    upsertStageProgress_history db projectId userId _ now
  have h2next : (setUserStageComplete (upsertStageProgress db projectId userId
      (currentStage.getD cur.stage) now) projectId userId).nextId = db.nextId :=
    upsertStageProgress_nextId db projectId userId _ now
  have h2mem : (setUserStageComplete (upsertStageProgress db projectId userId
      (currentStage.getD cur.stage) now) projectId userId).members =
      db.members.map (stageCompleteStep projectId userId) := by
    show (upsertStageProgress db projectId userId
      (currentStage.getD cur.stage) now).members.map _ = _
    rw [upsertStageProgress_members]
  rw [h2mem] at hmem3
  rw [h2next] at hnext3
  rw [h2hist] at hhist3
  have hfind3 : (checkAndUpdateProjectCompletion (setUserStageComplete
      (upsertStageProgress db projectId userId (currentStage.getD cur.stage) now)
      projectId userId) projectId).1.history.find?
        (nextStageCandidate cur (jsOr cur.project_id projectId) ns) = none := by
    rcases hhist3 with h | h
    · rw [h]
      exact List.find?_eq_none.mpr fun r hr => by simp [hnone r hr]
    · rw [h]
      refine List.find?_eq_none.mpr ?_
      intro x hx
      rw [List.mem_map] at hx
      obtain ⟨r, hr, rfl⟩ := hx
      rw [nextStageCandidate_statusUpdate]
      simp [hnone r hr]
  unfold completeProject completeProjectTx
  simp only [hcur, runQuery_ok, queryBase_ok, queryTxn_ok, checkCompletionFates_ok,
    commitQuery_ok, id]
  rw [hfind3]
  simp only [commitQuery_ok]
  split
  · -- the transaction cannot roll back with every query healthy
    rename_i habs
    exfalso
    split at habs <;> exact Option.noConfusion (congrArg Prod.snd habs)
  · rename_i dbr sr heq
    split at heq
    · -- no membership row of the current instance: nothing to migrate,
      -- but the instance is still created
      rename_i hempty
      cases heq
      constructor
      · refine ⟨nextStageInstance cur (checkAndUpdateProjectCompletion
          (setUserStageComplete (upsertStageProgress db projectId userId
            (currentStage.getD cur.stage) now) projectId userId) projectId).1.nextId
            (jsOr cur.project_id projectId) ns now, ?_, hnext3, rfl, rfl, rfl, rfl, rfl,
            rfl, rfl, rfl, rfl, rfl, ?_, rfl, rfl⟩
        · exact List.mem_append.mpr (Or.inr (List.mem_singleton.mpr rfl))
        · show now + stageDurationOrDefault cur.stage_duration =
              now + (match cur.stage_duration with
                | none => 14
                | some d => if d = 0 then 14 else d)
          cases cur.stage_duration with
          | none => rfl
          | some d =>
              by_cases hd : d = 0
              · simp [stageDurationOrDefault, jsOr, hd]
              · simp [stageDurationOrDefault, jsOr, beq_iff_eq, hd]
      · intro m hm hmp
        exfalso
        have hstep : stageCompleteStep projectId userId m ∈
            db.members.map (stageCompleteStep projectId userId) :=
          List.mem_map_of_mem _ hm
        rw [← hmem3] at hstep
        have hfilter : stageCompleteStep projectId userId m ∈
            ((checkAndUpdateProjectCompletion (setUserStageComplete
              (upsertStageProgress db projectId userId (currentStage.getD cur.stage) now)
              projectId userId) projectId).1.members.filter
                fun x => x.project_id == projectId) :=
          List.mem_filter.mpr ⟨hstep, by simp [stageCompleteStep_project_id, hmp]⟩
        have hmv := List.mem_map_of_mem (migratedRow (checkAndUpdateProjectCompletion
          (setUserStageComplete (upsertStageProgress db projectId userId
            (currentStage.getD cur.stage) now) projectId userId) projectId).1.nextId
            ns userId) hfilter
        simp only [List.isEmpty_iff] at hempty
        rw [hempty] at hmv
        exact List.not_mem_nil _ hmv
    · -- members migrated into the created instance
      rename_i hnotempty
      cases heq
      constructor
      · refine ⟨nextStageInstance cur (checkAndUpdateProjectCompletion
          (setUserStageComplete (upsertStageProgress db projectId userId
            (currentStage.getD cur.stage) now) projectId userId) projectId).1.nextId
            (jsOr cur.project_id projectId) ns now, ?_, hnext3, rfl, rfl, rfl, rfl, rfl,
            rfl, rfl, rfl, rfl, rfl, ?_, rfl, rfl⟩
        · exact List.mem_append.mpr (Or.inr (List.mem_singleton.mpr rfl))
        · show now + stageDurationOrDefault cur.stage_duration =
              now + (match cur.stage_duration with
                | none => 14
                | some d => if d = 0 then 14 else d)
          cases cur.stage_duration with
          | none => rfl
          | some d =>
              by_cases hd : d = 0
              · simp [stageDurationOrDefault, jsOr, hd]
              · simp [stageDurationOrDefault, jsOr, beq_iff_eq, hd]
      · intro m hm hmp
        have hstep : stageCompleteStep projectId userId m ∈
            db.members.map (stageCompleteStep projectId userId) :=
          List.mem_map_of_mem _ hm
        rw [← hmem3] at hstep
        have hfilter : stageCompleteStep projectId userId m ∈
            ((checkAndUpdateProjectCompletion (setUserStageComplete
              (upsertStageProgress db projectId userId (currentStage.getD cur.stage) now)
              projectId userId) projectId).1.members.filter
                fun x => x.project_id == projectId) :=
          List.mem_filter.mpr ⟨hstep, by simp [stageCompleteStep_project_id, hmp]⟩
        refine ⟨migratedRow (checkAndUpdateProjectCompletion (setUserStageComplete
          (upsertStageProgress db projectId userId (currentStage.getD cur.stage) now)
          projectId userId) projectId).1.nextId ns userId
            (stageCompleteStep projectId userId m),
          List.mem_append.mpr (Or.inr (List.mem_map_of_mem _ hfilter)),
          hnext3, stageCompleteStep_user_id projectId userId m,
          stageCompleteStep_role projectId userId m, rfl, ?_⟩
        show (if (stageCompleteStep projectId userId m).role == "project_owner" then none
          else if (stageCompleteStep projectId userId m).user_id == userId
            then some "In Progress" else some "Not Started") = _
        rw [stageCompleteStep_role, stageCompleteStep_user_id]
        by_cases hro : m.role = "project_owner"
        · simp [hro]
        · by_cases huid : m.user_id = userId
          · simp [hro, huid]
          · simp [hro, huid]

/-- C4 counterexample.  The claim's trigger condition - no NON-ARCHIVED
instance of the group for the next stage label - is not what the code
checks: on `archivedNextStageDB` only an `Archived` Development
instance of group 1 exists (first conjunct), yet completing the Design
stage creates no new instance (the table keeps its 2 rows) because the
status-blind search finds the archived row (id 2) and takes the found
path, reporting it as the next stage.  The last conjunct falsifies the
due-date clause as stated: on `zeroDurationDB` (stage_duration = 0, no
candidate) the created instance's due date is 100 + 14 = 114, not the
100 + 0 that `stage_due_date = stage_start_date + stage_duration`
predicts, because `stage_duration || 14` treats zero as falsy. -/
theorem archived_instance_blocks_creation :
    (archivedNextStageDB.history.all
      (fun r => r.stage != "Development" || r.status == "Archived") = true) ∧
    ((completeProject (fun _ => QueryFate.ok) archivedNextStageDB 1 8 none
        (some "Development") 100).1.history.length = 2) ∧
    ((completeProject (fun _ => QueryFate.ok) archivedNextStageDB 1 8 none
        (some "Development") 100).2 = StageOutcome.stageCompleted 2) ∧
    (((completeProject (fun _ => QueryFate.ok) zeroDurationDB 1 8 none
        (some "Development") 100).1.history.filter
        (fun r => r.stage == "Development")).map
        (fun r => r.stage_due_date) = [114]) := by
  decide

/-- Witness for C4 on `freshNextStageDB`: user 8 completes Design with
next stage Development; the new instance (id 3, due date 110) is
created and member 8 is migrated into it as `In Progress`. -/
theorem completeStage_creates_next_stage_witness :
    (∃ r ∈ (completeProject (fun _ => QueryFate.ok) freshNextStageDB 1 8 none
        (some "Development") 100).1.history,
      r.id = 3 ∧ r.organization = none ∧ r.project_name = "P" ∧
      r.project_description = "D" ∧ r.stage = "Development" ∧
      r.project_id = some 1 ∧ r.status = "In Progress" ∧
      r.carbon_emit = 0 ∧ r.session_duration = 0 ∧
      r.stage_duration = some 10 ∧ r.stage_start_date = 100 ∧
      r.stage_due_date = 110 ∧ r.project_start_date = 0 ∧
      r.project_due_date = 0) ∧
    (∃ m2 ∈ (completeProject (fun _ => QueryFate.ok) freshNextStageDB 1 8 none
        (some "Development") 100).1.members,
      m2.project_id = 3 ∧ m2.user_id = 8 ∧ m2.role = "member" ∧
      m2.current_stage = some "Development" ∧
      m2.progress_status = some "In Progress") := by
  have h := completeStage_creates_next_stage freshNextStageDB 1 8 none "Development"
    100
    { id := 1, user_id := 7, project_name := "P", project_description := "D",
      stage := "Design", project_id := some 1, status := "In Progress",
      stage_duration := some 10 } (by decide) (by decide)
  refine ⟨h.1, ?_⟩
  have h2 := h.2
    { project_id := 1, user_id := 8, role := "member",
      progress_status := some "In Progress" } (by decide) rfl
  exact h2

end EmissionServer
